import Mathlib

/-!
Verification development for the alarm-to-DingTalk middleware
(src/app_alarm2ding.py, src/ding_webhook.py).

The Python source is shallowly embedded: SQLite tables become lists of row
structures, the process-global dedup dictionary becomes an association list,
wall-clock readings and external effects (image resolution, webhook HTTP
calls, the serialized raw JSON) become explicit parameters of the embedded
functions.  Machine floats (time.time values) are modelled as rationals.
The dedup fingerprint is modelled by the sha1 *preimage*
"dev|type|track|second" built in _dedup_key; sha1 itself is a fixed-width
injective-modulo-collision encoding that the development treats as the
identity.
-/

namespace Alarm2Ding

/-- Python `a or b` on strings: the empty string is falsy. -/
def pyOr (a b : String) : String := if a = "" then b else a

/-- All characters are ASCII digits and the list is non-empty. -/
def isDigitsL (l : List Char) : Bool := (!l.isEmpty) && l.all Char.isDigit

/-- Python str.isdigit on ASCII input. -/
def isdigitStr (s : String) : Bool := isDigitsL s.data

/-- Numeric value of an all-digit character list. -/
def digitsValL (l : List Char) : Nat := l.foldl (fun a c => a * 10 + (c.toNat - 48)) 0

/-- Numeric value of an all-digit string. -/
def digitsVal (s : String) : Nat := digitsValL s.data

/-- Model of Python int(s) restricted to an optional minus sign followed by
digits (whitespace/underscore forms are not modelled; the program only feeds
it clock-digit slices). -/
def pyInt (s : String) : Option Int :=
  match s.data with
  | '-' :: rest => if isDigitsL rest then some (-(digitsValL rest : Int)) else none
  | l => if isDigitsL l then some (digitsValL l : Int) else none

/-- Split a character list on a separator character (the source only splits
on single-character separators). -/
def splitOnChar (c : Char) : List Char → List (List Char)
  | [] => [[]]
  | x :: xs =>
    if x == c then [] :: splitOnChar c xs
    else
      match splitOnChar c xs with
      | h :: t => (x :: h) :: t
      | [] => [[x]]

/-- str.split / String.splitOn with a single-character separator. -/
def splitOnCharStr (c : Char) (s : String) : List String :=
  (splitOnChar c s.data).map String.mk

/-- Left-pad a numeral with zeros to the given width (strftime %02d / %04d). -/
def padNum (w : Nat) (n : Nat) : String :=
  let s := toString n
  String.mk (List.replicate (w - s.length) '0') ++ s

/-- A parsed wall-clock date-time (strptime result). -/
structure DT where
  year : Nat
  month : Nat
  day : Nat
  hour : Nat
  minute : Nat
  second : Nat
deriving Repr, DecidableEq

/-- strftime("%Y-%m-%d %H:%M:%S"). -/
def fmtDT (t : DT) : String :=
  padNum 4 t.year ++ "-" ++ padNum 2 t.month ++ "-" ++ padNum 2 t.day ++ " " ++
  padNum 2 t.hour ++ ":" ++ padNum 2 t.minute ++ ":" ++ padNum 2 t.second

/-- Leap-year rule used by datetime's day-of-month validation. -/
def isLeap (y : Nat) : Bool := y % 4 = 0 && (y % 100 != 0 || y % 400 = 0)

def daysInMonth (y m : Nat) : Nat :=
  if m = 2 then (if isLeap y then 29 else 28)
  else if m = 4 || m = 6 || m = 9 || m = 11 then 30
  else 31

/-- A numeric strptime field: all digits, between 1 and maxLen characters,
value within [lo, hi]. -/
def fieldVal (s : String) (maxLen lo hi : Nat) : Option Nat :=
  if isdigitStr s && s.length ≥ 1 && s.length ≤ maxLen then
    let v := digitsVal s
    if lo ≤ v ∧ v ≤ hi then some v else none
  else none

/-- strptime against one of the three accepted layouts
"Y<ds>M<ds>D<ts>H:M:S" (ds the date separator, ts the date/time separator),
with datetime's range and day-of-month validation.  %Y is exactly four
digits; the other fields accept one or two digits. -/
def strptimeYmdHms (s : String) (ds ts : Char) : Option DT :=
  match splitOnCharStr ts s with
  | [d, t] =>
    match splitOnCharStr ds d, splitOnCharStr ':' t with
    | [ys, ms, dd], [hs, mis, ss] =>
      match fieldVal ys 4 1 9999, fieldVal ms 2 1 12, fieldVal dd 2 1 31,
            fieldVal hs 2 0 23, fieldVal mis 2 0 59, fieldVal ss 2 0 59 with
      | some y, some mo, some da, some h, some mi, some se =>
        if ys.length = 4 ∧ da ≤ daysInMonth y mo then
          some ⟨y, mo, da, h, mi, se⟩
        else none
      | _, _, _, _, _, _ => none
    | _, _ => none
  | _ => none

/-- The loop over the three accepted formats in _parse_time
("%Y-%m-%d %H:%M:%S", "%Y/%m/%d %H:%M:%S", "%Y-%m-%dT%H:%M:%S"):
first successful parse wins. -/
def strptimeAny (s : String) : Option DT :=
  match strptimeYmdHms s '-' ' ' with
  | some t => some t
  | none =>
    match strptimeYmdHms s '/' ' ' with
    | some t => some t
    | none => strptimeYmdHms s '-' 'T'

/-- Ambient wall-clock facts consumed by _parse_time: the current local time
already formatted, and local-time rendering of an epoch value
(datetime.fromtimestamp composed with strftime). -/
structure TimeEnv where
  nowStr : String
  fromTimestamp : Rat → String

/-- _parse_time (src/app_alarm2ding.py lines 354-368): empty input falls back
to "now"; otherwise the three textual formats are tried; otherwise a 10- or
13-digit string is treated as epoch seconds/milliseconds; otherwise the
input is returned unchanged. -/
def parse_time (env : TimeEnv) (s : String) : String :=
  if s = "" then env.nowStr
  else
    match strptimeAny s with
    | some t => fmtDT t
    | none =>
      if isdigitStr s ∧ (s.length = 10 ∨ s.length = 13) then
        env.fromTimestamp ((digitsVal s : Rat) / (if s.length = 13 then 1000 else 1))
      else s

/-- The raw inbound event after transport-level JSON extraction.  String
fields hold the _safe_str result for the corresponding payload key (absent
or null keys give ""), the two numeric fields hold the _safe_int result,
and raw holds the verbatim serialized payload (json.dumps). -/
structure Payload where
  deviceId : String
  gbid : String
  indexCode : String
  deviceName : String
  boxName : String
  boxId : String
  signTime : String
  typeName : String
  score : String
  typeId : Option Int
  trackId : Option Int
  age : Option String
  gender : Option String
  mask : Option String
  count : Option String
  raw : String
deriving Repr, DecidableEq

/-- The device component of _dedup_key (line 378):
deviceId or GBID or indexCode, empty when all three are empty. -/
def dedupDevice (p : Payload) : String :=
  pyOr p.deviceId (pyOr p.gbid p.indexCode)

/-- _dedup_key (lines 377-384) up to the final sha1: the fingerprint
preimage "dev|type|track|signTime-truncated-to-the-second". -/
def dedup_key (env : TimeEnv) (p : Payload) : String :=
  let dev := dedupDevice p
  let t := p.typeId.getD (-1)
  let track := p.trackId.getD (-1)
  let st := parse_time env p.signTime
  let stSec := (splitOnCharStr '.' st).headD ""
  dev ++ "|" ++ toString t ++ "|" ++ toString track ++ "|" ++ stSec

/-- Result of _pos_key (lines 393-401). -/
structure PosKey where
  deviceId : String
  channelKey : String
  channelName : String
  boxName : String
  indexOrGbid : String
deriving Repr, DecidableEq

/-- _pos_key: registry identity of an event.  Note the device column is
deviceId-or-"-" with no fallback to GBID or indexCode. -/
def pos_key (p : Payload) : PosKey :=
  { deviceId := pyOr p.deviceId "-"
  , channelKey := pyOr p.indexCode (pyOr p.gbid (pyOr p.deviceName "-"))
  , channelName := pyOr p.deviceName (pyOr p.indexCode (pyOr p.gbid "-"))
  , boxName := p.boxName
  , indexOrGbid := pyOr p.indexCode p.gbid }

/-- int(x[:2])*60 + int(x[3:5]) of an "HH:MM" string; none when either
slice is not numeric (Python slices by code point, as List Char does). -/
def toMin (x : String) : Option Int := do
  let h ← pyInt (String.mk (x.data.take 2))
  let m ← pyInt (String.mk ((x.data.drop 3).take 2))
  pure (h * 60 + m)

/-- _in_time_window (lines 403-417): empty start or end matches everything;
parse failure matches everything (the except branch); start==end matches
everything; start<end is the half-open interval; start>end spans
midnight. -/
def in_time_window (nowHhmm : String) (startHhmm endHhmm : String) : Bool :=
  if startHhmm = "" || endHhmm = "" then true
  else
    match toMin nowHhmm, toMin startHhmm, toMin endHhmm with
    | some n, some s, some e =>
      if s = e then true
      else if s < e then decide (s ≤ n) && decide (n < e)
      else decide (n ≥ s) || decide (n < e)
    | _, _, _ => true

/-- The per-weekday union of segments as evaluated at line 1356:
any(_in_time_window(now, s, e) for (s, e) in segs) if segs else False. -/
def in_time_multi (nowHhmm : String) (segs : List (String × String)) : Bool :=
  if segs.isEmpty then false
  else segs.any (fun se => in_time_window nowHhmm se.1 se.2)

/-! ## The SQLite data model -/

/-- One row of the devices table. -/
structure DeviceRow where
  device_id : String
  alias_ : Option String
  enabled : Int
  first_seen : String
  last_seen : String
  cnt : Int
deriving Repr, DecidableEq

/-- One row of the channels table (the legacy single-segment rule columns
rule_mask / rule_start / rule_end included). -/
structure ChannelRow where
  device_id : String
  channel_key : String
  channel_name : String
  box_name : String
  index_or_gbid : String
  enabled : Int
  first_seen : String
  last_seen : String
  cnt : Int
  rule_mask : Int
  rule_start : Option String
  rule_end : Option String
deriving Repr, DecidableEq

/-- One row of the channel_rules table. -/
structure RuleRow where
  device_id : String
  channel_key : String
  weekday : Int
  seg_idx : Int
  start_hhmm : String
  end_hhmm : String
deriving Repr, DecidableEq

/-- One row of the messages event log. -/
structure MsgRow where
  id : Int
  ts : String
  device_id : String
  channel_key : String
  channel_name : String
  type_ : Option Int
  type_name : String
  box_name : String
  device_name : String
  score : String
  image_url : Option String
  forwarded : Int
  forward_reason : String
  dedup_key : String
  raw_json : String
deriving Repr, DecidableEq

/-- One row of the webhooks table. -/
structure WebhookRow where
  id : Int
  name : String
  access_token : String
  secret : String
  enabled : Int
  is_default : Int
  created_at : String
deriving Repr, DecidableEq

/-- The whole SQLite database.  nextMsgId / nextWebhookId model the
AUTOINCREMENT counters of messages.id and webhooks.id. -/
structure Db where
  devices : List DeviceRow
  channels : List ChannelRow
  channel_rules : List RuleRow
  messages : List MsgRow
  nextMsgId : Int
  webhooks : List WebhookRow
  nextWebhookId : Int
  channel_webhooks : List (String × String × Int)
deriving Repr, DecidableEq

/-- Stable insertion sort by a boolean order (models ORDER BY). -/
def sortByLe (le : α → α → Bool) : List α → List α
  | [] => []
  | x :: xs =>
    let rec ins (x : α) : List α → List α
      | [] => [x]
      | y :: ys => if le x y then x :: y :: ys else y :: ins x ys
    ins x (sortByLe le xs)

/-! ## Registry DAO -/

/-- upsert_device (lines 695-711): on a known device update last_seen and
the counter and return the stored enabled flag; on first sight insert with
the configured default. -/
def upsert_device (db : Db) (device_id seen_ts : String) (deviceDefault : Int) :
    Int × Db :=
  match db.devices.find? (fun r => r.device_id == device_id) with
  | some row =>
    (row.enabled,
     { db with devices := db.devices.map (fun r =>
        if r.device_id == device_id then
          { r with last_seen := seen_ts, cnt := row.cnt + 1 }
        else r) })
  | none =>
    (deviceDefault,
     { db with devices := db.devices ++
        [{ device_id := device_id, alias_ := none, enabled := deviceDefault,
           first_seen := seen_ts, last_seen := seen_ts, cnt := 1 }] })

/-- upsert_channel (lines 713-738): on a known channel update last_seen,
the counter and the display columns and return the stored enabled flag and
legacy rule columns; on first sight insert with the configured default. -/
def upsert_channel (db : Db) (device_id channel_key channel_name box_name index_or_gbid
    seen_ts : String) (channelDefault : Int) :
    (Int × Int × Option String × Option String) × Db :=
  match db.channels.find? (fun r =>
      r.device_id == device_id && r.channel_key == channel_key) with
  | some row =>
    ((row.enabled, row.rule_mask, row.rule_start, row.rule_end),
     { db with channels := db.channels.map (fun r =>
        if r.device_id == device_id && r.channel_key == channel_key then
          { r with last_seen := seen_ts, cnt := row.cnt + 1,
                   channel_name := channel_name, box_name := box_name,
                   index_or_gbid := index_or_gbid }
        else r) })
  | none =>
    ((channelDefault, 0, none, none),
     { db with channels := db.channels ++
        [{ device_id := device_id, channel_key := channel_key,
           channel_name := channel_name, box_name := box_name,
           index_or_gbid := index_or_gbid, enabled := channelDefault,
           first_seen := seen_ts, last_seen := seen_ts, cnt := 1,
           rule_mask := 0, rule_start := none, rule_end := none }] })

/-- channel_has_any_rules (lines 842-851). -/
def channel_has_any_rules (db : Db) (dev ck : String) : Bool :=
  db.channel_rules.any (fun r => r.device_id == dev && r.channel_key == ck)

/-- channel_rules_for_weekday (lines 853-863), ORDER BY seg_idx ASC. -/
def channel_rules_for_weekday (db : Db) (dev ck : String) (weekday : Int) :
    List (String × String) :=
  (sortByLe (fun a b => a.seg_idx ≤ b.seg_idx)
    (db.channel_rules.filter (fun r =>
      r.device_id == dev && r.channel_key == ck && r.weekday == weekday))).map
    (fun r => (r.start_hhmm, r.end_hhmm))

/-- The record dict built by _handle_record_and_forward and handed to
insert_message. -/
structure MsgRec where
  ts : String
  device_id : String
  channel_key : String
  channel_name : String
  type_ : Option Int
  type_name : String
  box_name : String
  device_name : String
  score : String
  image_url : Option String
  forwarded : Bool
  forward_reason : String
  dedup_key : String
  raw_json : String
deriving Repr, DecidableEq

/-- insert_message (lines 761-773): INSERT OR IGNORE under the unique index
uq_messages_dedup ON messages(dedup_key) (line 629) — when a row with the
same dedup fingerprint already exists the statement is a silent no-op. -/
def insert_message (msgs : List MsgRow) (nextId : Int) (rec : MsgRec) :
    List MsgRow × Int :=
  if msgs.any (fun m => m.dedup_key == rec.dedup_key) then (msgs, nextId)
  else
    (msgs ++ [{ id := nextId, ts := rec.ts, device_id := rec.device_id,
                channel_key := rec.channel_key, channel_name := rec.channel_name,
                type_ := rec.type_, type_name := rec.type_name,
                box_name := rec.box_name, device_name := rec.device_name,
                score := rec.score, image_url := rec.image_url,
                forwarded := if rec.forwarded then 1 else 0,
                forward_reason := rec.forward_reason,
                dedup_key := rec.dedup_key, raw_json := rec.raw_json }],
     nextId + 1)

/-! ## Webhook DAO -/

/-- channel_webhook_ids (lines 1054-1063). -/
def channel_webhook_ids (db : Db) (dev ck : String) : List Int :=
  (db.channel_webhooks.filter (fun b => b.1 == dev && b.2.1 == ck)).map
    (fun b => b.2.2)

/-- webhook_get_default_enabled_id (lines 1076-1084):
SELECT id WHERE enabled=1 AND is_default=1 ORDER BY id ASC LIMIT 1. -/
def webhook_get_default_enabled_id (db : Db) : Option Int :=
  ((sortByLe (fun a b => a.id ≤ b.id)
     (db.webhooks.filter (fun w => w.enabled == 1 && w.is_default == 1))).map
    (fun w => w.id)).head?

/-- webhook_set_default (lines 1086-1094): clear every default mark, then
mark the given id default and force it enabled. -/
def webhook_set_default (db : Db) (wid : Int) : Db :=
  { db with webhooks :=
      (db.webhooks.map (fun w => { w with is_default := 0 })).map (fun w =>
        if w.id == wid then { w with is_default := 1, enabled := 1 } else w) }

/-- webhook_add (lines 1011-1029): insert with is_default forced to 0 and a
fresh AUTOINCREMENT id, then promote to default when requested, or
auto-promote when the new hook is enabled and no enabled default exists. -/
def webhook_add (db : Db) (name token secret : String) (enabled is_default : Int) :
    Db :=
  let wid := db.nextWebhookId
  let newRow : WebhookRow :=
    { id := wid, name := name, access_token := token, secret := secret,
      enabled := enabled, is_default := 0, created_at := "" }
  let db1 : Db :=
    { db with
      webhooks := db.webhooks ++ [newRow],
      nextWebhookId := wid + 1 }
  if wid > 0 then
    if is_default == 1 then webhook_set_default db1 wid
    else if enabled == 1 && (webhook_get_default_enabled_id db1).isNone then
      webhook_set_default db1 wid
    else db1
  else db1

/-- webhook_update_enable (lines 1031-1043): update enabled, and also
is_default when the optional argument is given — without clearing any other
row's default mark. -/
def webhook_update_enable (db : Db) (wid : Int) (enabled : Int)
    (is_default : Option Int) : Db :=
  match is_default with
  | none =>
    { db with webhooks := db.webhooks.map (fun w =>
        if w.id == wid then { w with enabled := enabled } else w) }
  | some d =>
    { db with webhooks := db.webhooks.map (fun w =>
        if w.id == wid then { w with enabled := enabled, is_default := d } else w) }

/-- webhook_delete (lines 1045-1052). -/
def webhook_delete (db : Db) (wid : Int) : Db :=
  { db with
      webhooks := db.webhooks.filter (fun w => !(w.id == wid)),
      channel_webhooks := db.channel_webhooks.filter (fun b => !(b.2.2 == wid)) }

/-- _robot_cached (lines 1116-1125) without the lru memoization: none when
the webhook row is missing or disabled, else its live credentials. -/
def robot_cached (db : Db) (wid : Int) : Option (String × String) :=
  match db.webhooks.find? (fun w => w.id == wid) with
  | none => none
  | some w => if w.enabled == 1 then some (w.access_token, w.secret) else none

/-! ## Runtime configuration (the environment variables of lines 252-313) -/

structure Config where
  APP_NAME : String
  DEDUP_WINDOW : Rat
  DEVICE_FORWARD_DEFAULT : Int
  CHANNEL_FORWARD_DEFAULT : Int
  DB_SWEEP_SEC : Rat
  DB_MAX_ROWS : Int
  DB_RETAIN_DAYS : Int
  BROKEN_REF_POLICY : String
  ORPHAN_FILE_POLICY : String
  RECONCILE_MAX_URLS : Int

/-! ## Dedup cache (_recent_keys and _prune_recent_keys) -/

/-- _recent_keys.get(dkey). -/
def cacheGet (c : List (String × Rat)) (k : String) : Option Rat :=
  (c.find? (fun kv => kv.1 == k)).map (fun kv => kv.2)

/-- _recent_keys[dkey] = now (dict write: replace or append). -/
def cacheSet (c : List (String × Rat)) (k : String) (v : Rat) : List (String × Rat) :=
  if c.any (fun kv => kv.1 == k) then
    c.map (fun kv => if kv.1 == k then (kv.1, v) else kv)
  else c ++ [(k, v)]

/-- The suppression test of lines 1330-1331: a recorded, non-zero (truthy)
last-seen time within the window. -/
def shouldSuppress (recent : List (String × Rat)) (k : String) (now w : Rat) : Bool :=
  match cacheGet recent k with
  | some l => (!(l == 0)) && decide (now - l < w)
  | none => false

/-- _prune_recent_keys (lines 334-342): amortized sweep — on every 200th
call, or once the map holds 10000 entries, drop entries older than
max(2*ttl, 30).  The call counter is threaded explicitly. -/
def prune_recent_keys (cnt : Nat) (c : List (String × Rat)) (now ttl : Rat) :
    Nat × List (String × Rat) :=
  let cnt1 := cnt + 1
  if cnt1 % 200 != 0 && c.length < 10000 then (cnt1, c)
  else (cnt1, c.filter (fun kv => !(decide (now - kv.2 > max (ttl * 2) 30))))

/-! ## DB sweep (_db_rotate_once / _db_sweep_maybe) -/

/-- _db_rotate_once (lines 1156-1194) without the VACUUM file-system step:
age-bound delete of rows with ts below the cutoff, then row-count bound
deleting the oldest excess rows ordered by (ts, id). -/
def db_rotate_once (cfg : Config) (retainCutoff : String) (db : Db) : Db :=
  if cfg.DB_RETAIN_DAYS ≤ 0 ∧ cfg.DB_MAX_ROWS ≤ 0 then db
  else
    let msgs1 :=
      if cfg.DB_RETAIN_DAYS > 0 then
        db.messages.filter (fun m => !(decide (m.ts < retainCutoff)))
      else db.messages
    let msgs2 :=
      if cfg.DB_MAX_ROWS > 0 then
        let over : Int := (msgs1.length : Int) - cfg.DB_MAX_ROWS
        if over > 0 then
          let victims := ((sortByLe (fun a b =>
              a.ts < b.ts || (a.ts == b.ts && a.id ≤ b.id)) msgs1).take over.toNat).map
            (fun m => m.id)
          msgs1.filter (fun m => !(victims.contains m.id))
        else msgs1
      else msgs1
    { db with messages := msgs2 }

/-- _db_sweep_maybe (lines 1196-1205). -/
def db_sweep_maybe (cfg : Config) (now2 last : Rat) (retainCutoff : String)
    (db : Db) : Rat × Db :=
  if cfg.DB_SWEEP_SEC ≤ 0 then (last, db)
  else if cfg.DB_MAX_ROWS ≤ 0 then (last, db)
  else if now2 - last < cfg.DB_SWEEP_SEC then (last, db)
  else (now2, db_rotate_once cfg retainCutoff db)

/-! ## Notification rendering (_algo_name and _build_md) -/

/-- Python str() of an Optional[int]. -/
def pyOptIntStr : Option Int → String
  | some n => toString n
  | none => "None"

/-- ALGO_MAP (lines 323-331). -/
def ALGO_MAP : List (Int × String) :=
  [(11, "禁区闯入"), (12, "翻越围栏"), (13, "安全帽"), (14, "反光衣"), (15, "打电话"),
   (16, "睡岗"), (18, "奔跑"), (19, "跌倒"), (21, "人员聚集"), (30, "人员滞留"),
   (31, "动态人流统计"), (36, "车辆违停"), (49, "驾驶室手势"), (1015, "疲劳检测"),
   (1021, "玩手机"), (1025, "行人闯红灯"), (1062, "未佩戴口罩"), (11000, "人形检测"),
   (12000, "人脸检测"), (1210, "人脸识别（含人体属性）"), (2001, "火"), (2002, "烟"),
   (20500, "画面监测"), (2060, "抛物监测"), (20700, "动物监测"), (2080, "地面状态"),
   (2090, "市容监测"), (3001, "仅检测车辆"), (3002, "车牌识别(非必检)"), (3011, "车辆违停")]

/-- _algo_name (lines 386-391). -/
def algo_name (typeId : Option Int) (typeName : String) : String :=
  if typeName ≠ "" then typeName ++ "(" ++ pyOptIntStr typeId ++ ")"
  else
    match typeId with
    | some n =>
      match (ALGO_MAP.find? (fun kv => kv.1 == n)).map (fun kv => kv.2) with
      | some nm => nm ++ "(" ++ toString n ++ ")"
      | none => "未知(" ++ toString n ++ ")"
    | none => "未知(None)"

/-- _build_md (lines 1293-1324): the rendered title and markdown body. -/
def build_md (cfg : Config) (env : TimeEnv) (p : Payload) (imgUrl : Option String) :
    String × String :=
  let title := "[" ++ cfg.APP_NAME ++ "] 告警：" ++ algo_name p.typeId p.typeName
  let st := parse_time env p.signTime
  let imgLines :=
    match imgUrl with
    | some u => if u = "" then [] else ["![snap](" ++ u ++ ")\n"]
    | none => []
  let baseLines :=
    ["- **时间**：`" ++ st ++ "`",
     "- **算法**：`" ++ algo_name p.typeId p.typeName ++ "`",
     "- **设备**：`" ++ pyOr p.deviceName "-" ++ " / " ++ pyOr p.boxName "-" ++
       "(boxId=" ++ pyOr p.boxId "-" ++ ")`"]
  let attrBits :=
    (match p.age with | some v => ["age=" ++ v] | none => []) ++
    (match p.gender with | some v => ["gender=" ++ v] | none => []) ++
    (match p.mask with | some v => ["mask=" ++ v] | none => []) ++
    (match p.count with | some v => ["count=" ++ v] | none => [])
  let attrLines :=
    if attrBits.isEmpty then []
    else ["- **attr**：`" ++ String.intercalate " , " attrBits ++ "`"]
  (title, String.intercalate "\n" (imgLines ++ baseLines ++ attrLines))

/-! ## Forwarding dispatcher (lines 1369-1398) -/

/-- Target resolution for a gated-open event: the channel's bound webhook
ids, falling back to the current enabled default (lines 1370-1373; a falsy
id of 0 would be dropped by the Python truthiness test). -/
def resolved_targets (db : Db) (dev ck : String) : List Int :=
  let bound := channel_webhook_ids db dev ck
  if bound.isEmpty then
    match webhook_get_default_enabled_id db with
    | some d => if d == 0 then [] else [d]
    | none => []
  else bound

/-- Accumulated state of the per-target loop. -/
structure LoopOut where
  succ : Nat
  total : Nat
  errs : List String
  attempted : List Int
deriving Repr, DecidableEq

/-- The per-target loop of lines 1375-1388: every id counts into total; a
missing/disabled target is a per-target error without an attempt; a live
target is attempted, and a DingRobotError becomes a per-target error. -/
def forward_loop (db : Db) (sendErr : Int → Option String) :
    List Int → LoopOut
  | [] => { succ := 0, total := 0, errs := [], attempted := [] }
  | wid :: rest =>
    let r := forward_loop db sendErr rest
    match robot_cached db wid with
    | none =>
      { r with total := r.total + 1,
               errs := ("wid=" ++ toString wid ++ "禁用/不存在") :: r.errs }
    | some _ =>
      match sendErr wid with
      | none =>
        { r with succ := r.succ + 1, total := r.total + 1,
                 attempted := wid :: r.attempted }
      | some e =>
        { r with total := r.total + 1,
                 errs := ("wid=" ++ toString wid ++ ":" ++ e) :: r.errs,
                 attempted := wid :: r.attempted }

/-- Outcome aggregation of lines 1390-1398, returning
(forwarded, forward_reason, attempted target ids). -/
def dispatch (db : Db) (sendErr : Int → Option String) (dev ck : String) :
    Bool × String × List Int :=
  let targetIds := resolved_targets db dev ck
  let r := forward_loop db sendErr targetIds
  if r.total = 0 then (false, "未转发（无可用webhook）", r.attempted)
  else if r.succ > 0 then
    (true, "已转发(" ++ toString r.succ ++ "/" ++ toString r.total ++ ")", r.attempted)
  else
    (false, "未转发（全部失败：" ++ String.intercalate "；" (r.errs.take 2) ++ "）",
     r.attempted)

/-! ## The ingestion core (_handle_record_and_forward, lines 1327-1435) -/

/-- Ambient facts consumed by one ingestion call: the two time.time()
readings, the datetime.now()-derived weekday / clock string / retention
cutoff, the image-store outcome (_resolve_image_url is file-system and
base64 I/O), the per-webhook send outcome (none = delivered, some e =
DingRobotError e), and whether the persistence layer fails at the final
insert. -/
structure CallEnv where
  now : Rat
  now2 : Rat
  timeEnv : TimeEnv
  nowDow : Int
  nowHm : String
  retainCutoff : String
  img : Option String
  sendErr : Int → Option String
  insertFails : Bool

/-- Process-wide mutable state: the database, the dedup dictionary, the
prune call counter and the last sweep time. -/
structure SysState where
  db : Db
  recent_keys : List (String × Rat)
  pruneCnt : Nat
  dbSweepLast : Rat

/-- The JSON response of one ingestion call. -/
inductive Resp where
  | ack (code : Int) (message : String)
  | echoResp (code : Int) (message : String) (title : String)
      (image_url : Option String) (forward_enabled : Bool)
deriving Repr, DecidableEq

/-- Result of one ingestion call: the new process state, the response, and
the audit list of webhook targets actually invoked. -/
structure StepOut where
  state : SysState
  resp : Resp
  sends : List Int

/-- The non-suppressed continuation of _handle_record_and_forward (lines
1333-1435): record the fingerprint in the cache, prune, upsert the
registry, evaluate the time gate, resolve the image, dispatch when
gated-open, persist (exceptions from insert_message are caught and only
logged, lines 1425-1428), amortized DB sweep, acknowledge. -/
def handle_core (cfg : Config) (env : CallEnv) (p : Payload)
    (echo : Bool) (st : SysState) : StepOut :=
  let dkey := dedup_key env.timeEnv p
  let now := env.now
  let cache1 := cacheSet st.recent_keys dkey now
  let pr := prune_recent_keys st.pruneCnt cache1 now cfg.DEDUP_WINDOW
  let stt := parse_time env.timeEnv p.signTime
  let pk := pos_key p
  let dRes := upsert_device st.db pk.deviceId stt cfg.DEVICE_FORWARD_DEFAULT
  let dev_enabled := dRes.1
  let cRes := upsert_channel dRes.2 pk.deviceId pk.channelKey pk.channelName
    pk.boxName pk.indexOrGbid stt cfg.CHANNEL_FORWARD_DEFAULT
  let ch_enabled := cRes.1.1
  let db2 := cRes.2
  let has_rules := channel_has_any_rules db2 pk.deviceId pk.channelKey
  let time_ok :=
    if has_rules then
      in_time_multi env.nowHm
        (channel_rules_for_weekday db2 pk.deviceId pk.channelKey env.nowDow)
    else true
  let forward_ok := (dev_enabled == 1) && (ch_enabled == 1) && time_ok
  let img_url := env.img
  let tm := build_md cfg env.timeEnv p img_url
  let fr :=
    if !echo && forward_ok then
      dispatch db2 env.sendErr pk.deviceId pk.channelKey
    else if echo then (false, "未转发（echo调试）", [])
    else
      let reasons :=
        (if dev_enabled != 1 then ["设备禁用"] else []) ++
        (if ch_enabled != 1 then ["通道禁用"] else []) ++
        (if !time_ok then ["非时间段"] else [])
      (false, "未转发（" ++ pyOr (String.intercalate "，" reasons) "未知原因" ++ "）",
       ([] : List Int))
  let rec0 : MsgRec :=
    { ts := stt, device_id := pk.deviceId, channel_key := pk.channelKey,
      channel_name := pk.channelName, type_ := p.typeId, type_name := p.typeName,
      box_name := p.boxName, device_name := p.deviceName, score := p.score,
      image_url := img_url, forwarded := fr.1, forward_reason := fr.2.1,
      dedup_key := dkey, raw_json := p.raw }
  let ins :=
    if env.insertFails then (db2.messages, db2.nextMsgId)
    else insert_message db2.messages db2.nextMsgId rec0
  let db3 := { db2 with messages := ins.1, nextMsgId := ins.2 }
  let sw := db_sweep_maybe cfg env.now2 st.dbSweepLast env.retainCutoff db3
  let st1 : SysState :=
    { db := sw.2, recent_keys := pr.2, pruneCnt := pr.1, dbSweepLast := sw.1 }
  if echo then
    { state := st1, resp := .echoResp 200 "echo" tm.1 img_url forward_ok,
      sends := fr.2.2 }
  else
    { state := st1, resp := .ack 200 "数据接收成功", sends := fr.2.2 }

/-- _handle_record_and_forward (lines 1327-1435): suppress a fingerprint
seen within the window (lines 1330-1332, returning the suppression
acknowledgment and touching nothing), else run the core pipeline. -/
def handle_record_and_forward (cfg : Config) (env : CallEnv) (p : Payload)
    (echo : Bool) (st : SysState) : StepOut :=
  if shouldSuppress st.recent_keys (dedup_key env.timeEnv p) env.now
      cfg.DEDUP_WINDOW then
    { state := st, resp := .ack 200 "重复告警抑制", sends := [] }
  else handle_core cfg env p echo st

/-- A sequence of ingestion calls (payload, echo flag, ambient facts),
processed in order against the shared process state. -/
def process_events (cfg : Config) :
    SysState → List (Payload × Bool × CallEnv) → SysState × List (Resp × List Int)
  | st, [] => (st, [])
  | st, e :: rest =>
    let out := handle_record_and_forward cfg e.2.2 e.1 e.2.1 st
    let r := process_events cfg out.state rest
    (r.1, (out.resp, out.sends) :: r.2)

/-! ## Reconciliation (reconcile_db_and_snaps, lines 1208-1290) -/

/-- An image file on disk under static/snaps/<day>/<name>. -/
structure SnapFile where
  day : String
  name : String
deriving Repr, DecidableEq

/-- The image store: the files and the day directories present on disk. -/
structure FsState where
  files : List SnapFile
  dirs : List String
deriving Repr, DecidableEq

/-- The summary dict returned by reconcile_db_and_snaps. -/
structure ReconcileStats where
  scanned_urls : Nat
  broken_refs : Nat
  fixed_rows : Nat
  orphan_files : Nat
  deleted_files : Nat
  removed_dirs : Nat
deriving Repr, DecidableEq

/-- The relative path of a stored file as the orphan walk derives it
("snaps/" + parent directory name + "/" + file name, line 1261). -/
def relOf (f : SnapFile) : String := "snaps/" ++ f.day ++ "/" ++ f.name

/-- Does a file exist at the given snaps-relative path
(_snap_local_path_from_rel(rel).exists())? -/
def fileExistsB (files : List SnapFile) (rel : String) : Bool :=
  files.any (fun f => relOf f == rel)

/-- Character-wise tail of a SQLite LIKE match: '_' matches any single
character; other characters match up to ASCII case folding. -/
def likeCharsMatch : List Char → List Char → Bool
  | [], [] => true
  | pc :: ps, c :: cs => (pc == '_' || pc.toLower == c.toLower) && likeCharsMatch ps cs
  | _, _ => false

/-- SQLite "x LIKE '%'+pat": the string ends with pat (ASCII
case-insensitively, '_' a single-character wildcard; an embedded '%' in pat
is not modelled as a wildcard — the referenced paths never contain one). -/
def likeSuffix (pat s : String) : Bool :=
  let p := pat.data
  let t := s.data
  decide (p.length ≤ t.length) && likeCharsMatch p (t.drop (t.length - p.length))

/-- NULL-aware LIKE on an image_url column value. -/
def urlLikeSuffix (u : Option String) (pat : String) : Bool :=
  match u with
  | some s => likeSuffix pat s
  | none => false

/-- Exact string suffix test at the character level (the rglob("*.jpg")
file-name filter). -/
def endsWithStr (suffix s : String) : Bool :=
  let p := suffix.data
  let t := s.data
  decide (p.length ≤ t.length) && t.drop (t.length - p.length) == p

/-- The reference scan of lines 1220-1234: stream rows whose image_url is
non-null and non-empty, count them, stop past the cap with the truncated
flag, and collect the snaps-relative paths into the referenced set (modelled
as an insertion-ordered duplicate-free list).  Returns
(scanned_urls, referenced, truncated). -/
def scanRefs (snapRel : String → Option String) (maxUrls : Int) :
    List MsgRow → Nat → List String → Nat × List String × Bool
  | [], scanned, refs => (scanned, refs, false)
  | m :: rest, scanned, refs =>
    let scanned1 := scanned + 1
    if maxUrls > 0 ∧ (scanned1 : Int) > maxUrls then (scanned1, refs, true)
    else
      let refs1 :=
        match snapRel ((m.image_url).getD "") with
        | some rel => if refs.contains rel then refs else refs ++ [rel]
        | none => refs
      scanRefs snapRel maxUrls rest scanned1 refs1

/-- The qualifying rows of the scan cursor:
WHERE image_url IS NOT NULL AND image_url <> ''. -/
def scanRows (msgs : List MsgRow) : List MsgRow :=
  msgs.filter (fun m => match m.image_url with | some u => u ≠ "" | none => false)

/-- The broken-reference phase of lines 1236-1253, processing the
referenced list in order: a referenced path with no file behind it is
broken; per policy its rows are cleared (clear_url) or deleted
(delete_record), and it is discarded from the referenced set.  Returns
(messages, broken count, fixed-row count, surviving referenced set). -/
def brokenPhase (policy : String) (files : List SnapFile) :
    List String → List MsgRow → List MsgRow × Nat × Nat × List String
  | [], msgs => (msgs, 0, 0, [])
  | rel :: rest, msgs =>
    if fileExistsB files rel then
      let r := brokenPhase policy files rest msgs
      (r.1, r.2.1, r.2.2.1, rel :: r.2.2.2)
    else
      let pat := "/" ++ rel
      let step :=
        if policy == "clear_url" then
          ((msgs.map (fun m =>
             if urlLikeSuffix m.image_url pat then { m with image_url := none }
             else m)),
           (msgs.filter (fun m => urlLikeSuffix m.image_url pat)).length)
        else
          ((msgs.filter (fun m => !(urlLikeSuffix m.image_url pat))),
           (msgs.filter (fun m => urlLikeSuffix m.image_url pat)).length)
      let r := brokenPhase policy files rest step.1
      (r.1, r.2.1 + 1, r.2.2.1 + step.2, r.2.2.2)

/-- The orphan walk of lines 1255-1267 over the .jpg files of the store:
a file whose relative path is not referenced is deleted.  Returns
(surviving files, orphan count, deleted count). -/
def orphanPhase (keep : List String) : List SnapFile → List SnapFile × Nat × Nat
  | [] => ([], 0, 0)
  | f :: rest =>
    let r := orphanPhase keep rest
    if endsWithStr ".jpg" f.name && !(keep.contains (relOf f)) then
      (r.1, r.2.1 + 1, r.2.2 + 1)
    else (f :: r.1, r.2.1, r.2.2)

/-- reconcile_db_and_snaps: scan references (bounded), repair broken
references, delete orphan files unless the scan was truncated or policy
forbids, remove now-empty day directories, and return the summary. -/
def reconcile_db_and_snaps (cfg : Config) (snapRel : String → Option String)
    (msgs : List MsgRow) (fs : FsState) :
    List MsgRow × FsState × ReconcileStats :=
  let scan := scanRefs snapRel cfg.RECONCILE_MAX_URLS (scanRows msgs) 0 []
  let scanned_urls := scan.1
  let referenced := scan.2.1
  let truncated := scan.2.2
  let br := brokenPhase cfg.BROKEN_REF_POLICY fs.files referenced msgs
  let msgs1 := br.1
  let broken := br.2.1
  let fixed_rows := br.2.2.1
  let kept := br.2.2.2
  let orp :=
    if cfg.ORPHAN_FILE_POLICY == "delete_file" && !truncated then
      orphanPhase kept fs.files
    else (fs.files, 0, 0)
  let files1 := orp.1
  let emptyDirs := fs.dirs.filter (fun d => !(files1.any (fun f => f.day == d)))
  let fs1 : FsState :=
    { files := files1,
      dirs := fs.dirs.filter (fun d => files1.any (fun f => f.day == d)) }
  (msgs1, fs1,
   { scanned_urls := scanned_urls, broken_refs := broken, fixed_rows := fixed_rows,
     orphan_files := orp.2.1, deleted_files := orp.2.2,
     removed_dirs := emptyDirs.length })

/-! ## Shared concrete fixtures used by witnesses and counterexamples -/

/-- A fixed wall clock for concrete runs. -/
def tenv0 : TimeEnv :=
  { nowStr := "2025-10-12 00:00:00", fromTimestamp := fun _ => "2025-10-12 00:00:00" }

/-- A concrete inbound event with an empty explicit device id but a
populated GBID. -/
def p0 : Payload :=
  { deviceId := "", gbid := "g1", indexCode := "", deviceName := "cam",
    boxName := "box", boxId := "b1", signTime := "2024-01-02 03:04:05",
    typeName := "", score := "0.9", typeId := some 11, trackId := some 7,
    age := none, gender := none, mask := none, count := none, raw := "RAW" }

/-- A concrete database: three webhooks (1 enabled default, 2 enabled,
3 disabled), all bound to channel ("d","c"). -/
def db0 : Db :=
  { devices := [], channels := [], channel_rules := [], messages := [],
    nextMsgId := 1,
    webhooks :=
      [{ id := 1, name := "a", access_token := "t1", secret := "s1",
         enabled := 1, is_default := 1, created_at := "" },
       { id := 2, name := "b", access_token := "t2", secret := "s2",
         enabled := 1, is_default := 0, created_at := "" },
       { id := 3, name := "c", access_token := "t3", secret := "s3",
         enabled := 0, is_default := 0, created_at := "" }],
    nextWebhookId := 4,
    channel_webhooks := [("d", "c", 1), ("d", "c", 2), ("d", "c", 3)] }

/-- The default runtime configuration (the documented env-var defaults). -/
def cfg0 : Config :=
  { APP_NAME := "algo-edge", DEDUP_WINDOW := 10, DEVICE_FORWARD_DEFAULT := 1,
    CHANNEL_FORWARD_DEFAULT := 0, DB_SWEEP_SEC := 60, DB_MAX_ROWS := 0,
    DB_RETAIN_DAYS := 30, BROKEN_REF_POLICY := "delete_record",
    ORPHAN_FILE_POLICY := "delete_file", RECONCILE_MAX_URLS := 200000 }

/-- A concrete ambient environment for one ingestion call at time 100. -/
def cenv0 : CallEnv :=
  { now := 100, now2 := 100, timeEnv := tenv0, nowDow := 1, nowHm := "12:00",
    retainCutoff := "2025-09-12 00:00:00", img := none,
    sendErr := fun _ => none, insertFails := false }

/-- An empty process state over db0. -/
def st0 : SysState :=
  { db := db0, recent_keys := [], pruneCnt := 0, dbSweepLast := 0 }

/-! ## Helper lemmas -/

/-- Neither registry upsert touches the event log. -/
theorem upsert_device_messages (db : Db) (d ts : String) (df : Int) :
    (upsert_device db d ts df).2.messages = db.messages ∧
    (upsert_device db d ts df).2.nextMsgId = db.nextMsgId := by
  unfold upsert_device
  cases db.devices.find? (fun r => r.device_id == d) <;> simp

theorem upsert_channel_messages (db : Db) (d ck cn bn ig ts : String) (df : Int) :
    (upsert_channel db d ck cn bn ig ts df).2.messages = db.messages ∧
    (upsert_channel db d ck cn bn ig ts df).2.nextMsgId = db.nextMsgId := by
  unfold upsert_channel
  cases db.channels.find? (fun r => r.device_id == d && r.channel_key == ck) <;> simp

/-! ## Claim C3: time-window semantics -/

/-- Claim C3: for every time-of-day and every rule segment evaluated by the
time-window check, a segment with start equal to end matches every time; a
segment with start greater than end matches exactly when the time is at or
after start or strictly before end (spanning midnight); and a weekday's
segment list is evaluated as a union — the check is true iff some segment
matches. -/
theorem time_window_semantics (nowS sS eS : String) (n s e : Int)
    (hn : toMin nowS = some n) (hs : toMin sS = some s) (he : toMin eS = some e)
    (hs0 : sS ≠ "") (he0 : eS ≠ "") :
    ((s = e → in_time_window nowS sS eS = true) ∧
     (e < s → (in_time_window nowS sS eS = true ↔ s ≤ n ∨ n < e))) ∧
    ∀ (segs : List (String × String)),
      (in_time_multi nowS segs = true ↔
        ∃ se ∈ segs, in_time_window nowS se.1 se.2 = true) := by
  constructor
  · unfold in_time_window
    rw [hn, hs, he]
    simp only [hs0, he0, decide_False, Bool.or_self, Bool.false_eq_true,
      if_false, decide_eq_true_eq]
    constructor
    · intro hse
      simp [hse]
    · intro hlt
      have h1 : ¬(s = e) := by omega
      have h2 : ¬(s < e) := by omega
      simp only [h1, if_false, h2, Bool.or_eq_true, decide_eq_true_eq, ge_iff_le]
  · intro segs
    unfold in_time_multi
    cases segs with
    | nil => simp
    | cons a l => simp [List.any_eq_true]

/-- Claim C3 witness: the 22:00-06:00 midnight-spanning segment at 23:30
(and the one-segment union at that instant). -/
theorem time_window_semantics_witness :
    (in_time_window "23:30" "22:00" "06:00" = true ↔
      (1320 : Int) ≤ 1410 ∨ (1410 : Int) < 360) ∧
    (in_time_multi "23:30" [("22:00", "06:00")] = true ↔
      ∃ se ∈ [("22:00", "06:00")], in_time_window "23:30" se.1 se.2 = true) := by
  have h := time_window_semantics "23:30" "22:00" "06:00" 1410 1320 360
    (by decide) (by decide) (by decide) (by decide) (by decide)
  exact ⟨h.1.2 (by decide), h.2 [("22:00", "06:00")]⟩

/-! ## Claim C4: idempotent event-log append -/

/-- Claim C4: inserting an event record whose dedup fingerprint already
exists in the messages table leaves the table (and the id counter)
unchanged — a silent no-op, not an error (the embedded insert_message is a
total function; SQLite's INSERT OR IGNORE raises nothing here). -/
theorem insert_duplicate_fingerprint_noop (msgs : List MsgRow) (nextId : Int)
    (r : MsgRec) (h : ∃ m ∈ msgs, m.dedup_key = r.dedup_key) :
    insert_message msgs nextId r = (msgs, nextId) := by
  unfold insert_message
  have ha : msgs.any (fun m => m.dedup_key == r.dedup_key) = true := by
    rcases h with ⟨m, hm, he⟩
    exact List.any_eq_true.2 ⟨m, hm, by simp [he]⟩
  simp [ha]

/-- An event-log row fixture with fingerprint "dk". -/
def mrow0 : MsgRow :=
  { id := 1, ts := "2024-01-02 03:04:05", device_id := "-", channel_key := "g1",
    channel_name := "cam", type_ := some 11, type_name := "", box_name := "box",
    device_name := "cam", score := "0.9", image_url := none, forwarded := 0,
    forward_reason := "", dedup_key := "dk", raw_json := "RAW" }

/-- A record fixture carrying the same fingerprint "dk". -/
def mrec0 : MsgRec :=
  { ts := "2024-01-02 03:04:06", device_id := "-", channel_key := "g1",
    channel_name := "cam", type_ := some 11, type_name := "", box_name := "box",
    device_name := "cam", score := "0.8", image_url := none, forwarded := true,
    forward_reason := "已转发(1/1)", dedup_key := "dk", raw_json := "RAW2" }

/-- Claim C4 witness: a concrete duplicate insert is a no-op. -/
theorem insert_duplicate_fingerprint_noop_witness :
    (∃ m ∈ [mrow0], m.dedup_key = mrec0.dedup_key) ∧
    insert_message [mrow0] 5 mrec0 = ([mrow0], 5) :=
  ⟨⟨mrow0, by simp, rfl⟩,
   insert_duplicate_fingerprint_noop [mrow0] 5 mrec0 ⟨mrow0, by simp, rfl⟩⟩

/-! ## Claim C7: timestamp normalization fallback -/

/-- Claim C7 counterexample: a present but unparseable signal timestamp is
returned verbatim by _parse_time, not replaced by the current time — so the
record's timestamp keeps the malformed text instead of "now". -/
theorem parse_time_fallback_counterexample :
    parse_time tenv0 "garbage" = "garbage" ∧
    parse_time tenv0 "garbage" ≠ tenv0.nowStr := by
  exact ⟨rfl, by decide⟩

/-- Claim C7 amended: for a non-empty signal-timestamp that matches none of
the accepted textual formats and is not a 10- or 13-digit epoch number,
normalization returns the input string unchanged (only an absent/empty
field falls back to "now"; ingestion still never fails, since the function
is total). -/
theorem parse_time_unparseable_returns_input (env : TimeEnv) (s : String)
    (h0 : s ≠ "") (h1 : strptimeAny s = none)
    (h2 : ¬(isdigitStr s ∧ (s.length = 10 ∨ s.length = 13))) :
    parse_time env s = s := by
  unfold parse_time
  rw [if_neg h0, h1, if_neg h2]

/-- Claim C7 witness: the amended fallback at the input "garbage". -/
theorem parse_time_unparseable_returns_input_witness :
    ("garbage" ≠ "") ∧ parse_time tenv0 "garbage" = "garbage" :=
  ⟨by decide,
   parse_time_unparseable_returns_input tenv0 "garbage" (by decide) (by decide)
     (by decide)⟩

/-! ## Claim C8: device identity derivation -/

/-- The spec's "first non-empty of a priority list, else a sentinel". -/
def specFirstNonEmpty (xs : List String) (dflt : String) : String :=
  match xs.find? (fun x => !(x == "")) with
  | some x => x
  | none => dflt

/-- The device identity as the claim words it: first non-empty of explicit
device id, GBID, index code, else a sentinel (stated against the spec for
comparison with the code's two derivations). -/
def claimedDeviceIdentity (p : Payload) : String :=
  specFirstNonEmpty [p.deviceId, p.gbid, p.indexCode] "-"

/-- Claim C8 counterexample: for an event with an empty explicit device id
and a populated GBID, the dedup fingerprint uses the GBID but the registry
row uses the sentinel "-" — the two identities differ, so they are not
"alike" the claimed first-non-empty chain. -/
theorem device_identity_counterexample :
    claimedDeviceIdentity p0 = "g1" ∧ dedupDevice p0 = "g1" ∧
    (pos_key p0).deviceId = "-" ∧
    (pos_key p0).deviceId ≠ claimedDeviceIdentity p0 :=
  ⟨rfl, rfl, rfl, by decide⟩

/-- Claim C8 amended: only the dedup fingerprint uses the claimed
first-non-empty chain over device id, GBID, index code (with empty-string
default); the registry row's device identity is the explicit device id
alone, with sentinel "-" when it is empty. -/
theorem device_identity_amended (p : Payload) :
    dedupDevice p = specFirstNonEmpty [p.deviceId, p.gbid, p.indexCode] "" ∧
    (pos_key p).deviceId = specFirstNonEmpty [p.deviceId] "-" := by
  constructor
  · unfold dedupDevice pyOr specFirstNonEmpty
    by_cases h1 : p.deviceId = ""
    · by_cases h2 : p.gbid = ""
      · by_cases h3 : p.indexCode = ""
        · simp [h1, h2, h3, List.find?]
        · have b3 : (p.indexCode == "") = false := beq_eq_false_iff_ne.mpr h3
          simp [h1, h2, b3, List.find?]
      · have b2 : (p.gbid == "") = false := beq_eq_false_iff_ne.mpr h2
        simp [h1, h2, b2, List.find?]
    · have b1 : (p.deviceId == "") = false := beq_eq_false_iff_ne.mpr h1
      simp [h1, b1, List.find?]
  · unfold pos_key pyOr specFirstNonEmpty
    by_cases h1 : p.deviceId = ""
    · simp [h1, List.find?]
    · have b1 : (p.deviceId == "") = false := beq_eq_false_iff_ne.mpr h1
      simp [h1, b1, List.find?]

/-! ## Claim C10: registry upsert frame effect -/

/-- Claim C10: for an existing device or channel, the upserts return the
previously stored enabled flag and leave the enabled flag, first_seen (and
the identity / legacy-rule columns) of every row untouched — only last_seen,
the counter and (for channels) the display fields change. -/
theorem upsert_frame_effect (db : Db) (devId ck cn bn ig ts : String)
    (ddf cdf : Int) :
    (∀ row, db.devices.find? (fun r => r.device_id == devId) = some row →
      (upsert_device db devId ts ddf).1 = row.enabled ∧
      List.Forall₂ (fun (r1 r0 : DeviceRow) =>
          r1.device_id = r0.device_id ∧ r1.alias_ = r0.alias_ ∧
          r1.enabled = r0.enabled ∧ r1.first_seen = r0.first_seen)
        (upsert_device db devId ts ddf).2.devices db.devices) ∧
    (∀ row, db.channels.find? (fun r =>
        r.device_id == devId && r.channel_key == ck) = some row →
      (upsert_channel db devId ck cn bn ig ts cdf).1.1 = row.enabled ∧
      List.Forall₂ (fun (r1 r0 : ChannelRow) =>
          r1.device_id = r0.device_id ∧ r1.channel_key = r0.channel_key ∧
          r1.enabled = r0.enabled ∧ r1.first_seen = r0.first_seen ∧
          r1.rule_mask = r0.rule_mask ∧ r1.rule_start = r0.rule_start ∧
          r1.rule_end = r0.rule_end)
        (upsert_channel db devId ck cn bn ig ts cdf).2.channels db.channels) := by
  constructor
  · intro row h
    unfold upsert_device
    rw [h]
    refine ⟨rfl, ?_⟩
    simp only [List.forall₂_map_left_iff]
    rw [List.forall₂_same]
    intro r _
    by_cases hc : r.device_id == devId <;> simp [hc]
  · intro row h
    unfold upsert_channel
    rw [h]
    refine ⟨rfl, ?_⟩
    simp only [List.forall₂_map_left_iff]
    rw [List.forall₂_same]
    intro r _
    by_cases hc : r.device_id == devId && r.channel_key == ck <;> simp [hc]

/-- A registry fixture: one known device (disabled) and one known channel
(enabled) for device "d1". -/
def dbReg : Db :=
  { db0 with
    devices :=
      [{ device_id := "d1", alias_ := some "front gate", enabled := 0,
         first_seen := "2024-01-01 00:00:00", last_seen := "2024-01-01 00:00:00",
         cnt := 3 }],
    channels :=
      [{ device_id := "d1", channel_key := "k1", channel_name := "cam1",
         box_name := "box1", index_or_gbid := "k1", enabled := 1,
         first_seen := "2024-01-01 00:00:00", last_seen := "2024-01-01 00:00:00",
         cnt := 3, rule_mask := 0, rule_start := none, rule_end := none }] }

/-- Claim C10 witness: the upserts on the known device/channel of dbReg. -/
theorem upsert_frame_effect_witness :
    (upsert_device dbReg "d1" "2024-02-02 00:00:00" 1).1 = 0 ∧
    (upsert_device dbReg "d1" "2024-02-02 00:00:00" 1).2.devices.map
      (fun r => (r.enabled, r.first_seen)) =
      [(0, "2024-01-01 00:00:00")] ∧
    (upsert_channel dbReg "d1" "k1" "newname" "newbox" "k1"
      "2024-02-02 00:00:00" 0).1.1 = 1 ∧
    (upsert_channel dbReg "d1" "k1" "newname" "newbox" "k1"
      "2024-02-02 00:00:00" 0).2.channels.map
      (fun r => (r.enabled, r.first_seen)) =
      [(1, "2024-01-01 00:00:00")] := by
  have h := upsert_frame_effect dbReg "d1" "k1" "newname" "newbox" "k1"
    "2024-02-02 00:00:00" 1 0
  have hd := h.1 (dbReg.devices.head (by decide)) (by decide)
  have hc := h.2 (dbReg.channels.head (by decide)) (by decide)
  refine ⟨hd.1, by decide, hc.1, by decide⟩

/-! ## More helper lemmas for the ingestion pipeline -/

/-- A disabled sweep (DB_MAX_ROWS ≤ 0) never touches the database. -/
theorem db_sweep_maybe_norows (cfg : Config) (n l : Rat) (c : String) (db : Db)
    (h : cfg.DB_MAX_ROWS ≤ 0) : db_sweep_maybe cfg n l c db = (l, db) := by
  unfold db_sweep_maybe
  by_cases h1 : cfg.DB_SWEEP_SEC ≤ 0 <;> simp [h1, h]

/-- A suppressed call returns the suppression acknowledgment, performs no
webhook invocation and leaves the whole process state unchanged. -/
theorem handle_suppressed (cfg : Config) (env : CallEnv) (p : Payload)
    (echo : Bool) (st : SysState)
    (h : shouldSuppress st.recent_keys (dedup_key env.timeEnv p) env.now
      cfg.DEDUP_WINDOW = true) :
    handle_record_and_forward cfg env p echo st =
      { state := st, resp := .ack 200 "重复告警抑制", sends := [] } := by
  unfold handle_record_and_forward
  simp [h]

/-- A non-suppressed call runs the core pipeline. -/
theorem handle_not_suppressed (cfg : Config) (env : CallEnv) (p : Payload)
    (echo : Bool) (st : SysState)
    (h : shouldSuppress st.recent_keys (dedup_key env.timeEnv p) env.now
      cfg.DEDUP_WINDOW = false) :
    handle_record_and_forward cfg env p echo st = handle_core cfg env p echo st := by
  unfold handle_record_and_forward
  simp [h]

/-- The core pipeline acknowledges every non-echo event with the fixed
success message, whatever happened inside. -/
theorem handle_core_resp (cfg : Config) (env : CallEnv) (p : Payload)
    (st : SysState) :
    (handle_core cfg env p false st).resp = .ack 200 "数据接收成功" := rfl

/-- The event log after the core pipeline, unfolded one step: the insert
(or its skip on a persistence failure) followed by the sweep. -/
theorem handle_core_messages (cfg : Config) (env : CallEnv) (p : Payload)
    (echo : Bool) (st : SysState) (hrows : cfg.DB_MAX_ROWS ≤ 0)
    (hf : env.insertFails = true) :
    (handle_core cfg env p echo st).state.db.messages = st.db.messages := by
  unfold handle_core
  simp only [hf, if_true]
  rw [db_sweep_maybe_norows _ _ _ _ _ hrows]
  simp only
  rw [(upsert_channel_messages _ _ _ _ _ _ _ _).1,
     (upsert_device_messages _ _ _ _).1]
  cases echo <;> simp

/-! ## Claim C9: persistence-failure propagation and the acknowledgment -/

/-- A call environment in which the persistence layer fails at the final
insert. -/
def cenvFail : CallEnv := { cenv0 with insertFails := true }

/-- Claim C9 counterexample: with the persistence layer failing at the
final insert, the ingestion call still returns the ordinary success
acknowledgment and no row is persisted — the failure is caught and logged
(lines 1425-1428), not propagated as a failure of the call. -/
theorem insert_failure_masked_counterexample :
    (handle_record_and_forward cfg0 cenvFail p0 false st0).resp =
      Resp.ack 200 "数据接收成功" ∧
    (handle_record_and_forward cfg0 cenvFail p0 false st0).state.db.messages = [] := by
  constructor <;> rfl

/-- Claim C9 amended: every non-suppressed, non-echo ingestion call returns
the fixed success acknowledgment "数据接收成功" — also when the persistence
layer fails at the final event-record write, in which case (sweep disabled)
the event log is simply left unchanged.  The forwarded flag and the
informational forward reason live in the persisted record, not in the
acknowledgment. -/
theorem ingestion_ack_and_masking (cfg : Config) (env : CallEnv) (p : Payload)
    (st : SysState)
    (h : shouldSuppress st.recent_keys (dedup_key env.timeEnv p) env.now
      cfg.DEDUP_WINDOW = false) :
    (handle_record_and_forward cfg env p false st).resp =
      Resp.ack 200 "数据接收成功" ∧
    (env.insertFails = true → cfg.DB_MAX_ROWS ≤ 0 →
      (handle_record_and_forward cfg env p false st).state.db.messages =
        st.db.messages) := by
  rw [handle_not_suppressed cfg env p false st h]
  exact ⟨handle_core_resp cfg env p st,
    fun hf hrows => handle_core_messages cfg env p false st hrows hf⟩

/-- Claim C9 witness: the amended statement at the concrete failing run. -/
theorem ingestion_ack_and_masking_witness :
    (handle_record_and_forward cfg0 cenvFail p0 false st0).resp =
      Resp.ack 200 "数据接收成功" ∧
    (handle_record_and_forward cfg0 cenvFail p0 false st0).state.db.messages =
      st0.db.messages := by
  have h := ingestion_ack_and_masking cfg0 cenvFail p0 st0 (by decide)
  exact ⟨h.1, h.2 rfl (by decide)⟩

/-! ## Claim C2: forwarding outcome aggregation -/

/-- Declarative success count over a target list: targets whose credentials
resolve and whose invocation succeeds. -/
def succ_count (db : Db) (sendErr : Int → Option String) (ids : List Int) : Nat :=
  (ids.filter (fun wid =>
    (robot_cached db wid).isSome && (sendErr wid).isNone)).length

/-- Declarative per-target error list: one entry for each missing/disabled
target and each failed invocation, in target order. -/
def per_target_errs (db : Db) (sendErr : Int → Option String) (ids : List Int) :
    List String :=
  ids.filterMap (fun wid =>
    match robot_cached db wid with
    | none => some ("wid=" ++ toString wid ++ "禁用/不存在")
    | some _ =>
      match sendErr wid with
      | none => none
      | some e => some ("wid=" ++ toString wid ++ ":" ++ e))

/-- The per-target loop computes exactly the declarative counts: successes,
the total = every resolved id, the ordered error list, and the attempted
ids = those with live credentials. -/
theorem forward_loop_spec (db : Db) (sendErr : Int → Option String) :
    ∀ ids : List Int,
      forward_loop db sendErr ids =
        { succ := succ_count db sendErr ids, total := ids.length,
          errs := per_target_errs db sendErr ids,
          attempted := ids.filter (fun wid => (robot_cached db wid).isSome) } := by
  intro ids
  induction ids with
  | nil => rfl
  | cons wid rest ih =>
    unfold forward_loop
    rw [ih]
    cases hrc : robot_cached db wid with
    | none =>
      simp [succ_count, per_target_errs, hrc, List.filter_cons, List.filterMap_cons]
    | some bot =>
      cases hse : sendErr wid with
      | none =>
        simp [succ_count, per_target_errs, hrc, hse, List.filter_cons,
          List.filterMap_cons]
      | some e =>
        simp [succ_count, per_target_errs, hrc, hse, List.filter_cons,
          List.filterMap_cons]

/-- Claim C2: for a gated-open event dispatched to its resolved targets —
zero resolved targets give forwarded=false with the "no usable webhook"
reason; at least one attempted and at least one success give forwarded=true
with a reason containing "succ/total"; at least one attempted and zero
successes give forwarded=false with the "all failed" reason carrying the
error list truncated to two entries. -/
theorem forwarding_aggregation (db : Db) (sendErr : Int → Option String)
    (dev ck : String) (tg : List Int)
    (htg : resolved_targets db dev ck = tg) :
    (tg = [] → dispatch db sendErr dev ck = (false, "未转发（无可用webhook）", [])) ∧
    (tg ≠ [] → 0 < succ_count db sendErr tg →
      (dispatch db sendErr dev ck).1 = true ∧
      ∃ a b, (dispatch db sendErr dev ck).2.1 =
        a ++ (toString (succ_count db sendErr tg) ++ "/" ++ toString tg.length)
          ++ b) ∧
    (tg ≠ [] → succ_count db sendErr tg = 0 →
      (dispatch db sendErr dev ck).1 = false ∧
      (dispatch db sendErr dev ck).2.1 =
        "未转发（全部失败：" ++
          String.intercalate "；" ((per_target_errs db sendErr tg).take 2) ++ "）") := by
  unfold dispatch
  rw [htg]
  simp only [forward_loop_spec]
  refine ⟨?_, ?_, ?_⟩
  · intro he
    subst he
    simp
  · intro hne hs
    have hlen : tg.length ≠ 0 := by
      simpa [List.length_eq_zero] using hne
    constructor
    · simp [hlen, hs]
    · refine ⟨"已转发(", ")", ?_⟩
      simp [hlen, hs, String.append_assoc]
  · intro hne hs
    have hlen : tg.length ≠ 0 := by
      simpa [List.length_eq_zero] using hne
    constructor
    · simp [hlen, hs]
    · simp [hlen, hs]

/-- The witness send outcome: target 1 fails with an HTTP error, everything
else succeeds. -/
def sendErrW : Int → Option String :=
  fun wid => if wid == 1 then some "HTTP 500" else none

/-- Claim C2 witness: three bound targets, one succeeds (target 2), one
fails (target 1), one is disabled (target 3): forwarded=true and the reason
contains "1/3". -/
theorem forwarding_aggregation_witness :
    (dispatch db0 sendErrW "d" "c").1 = true ∧
    ∃ a b, (dispatch db0 sendErrW "d" "c").2.1 = a ++ "1/3" ++ b := by
  have h := (forwarding_aggregation db0 sendErrW "d" "c" [1, 2, 3] (by decide)).2.1
    (by decide) (by decide)
  refine ⟨h.1, ?_⟩
  rcases h.2 with ⟨a, b, hab⟩
  refine ⟨a, b, ?_⟩
  rw [hab]
  rfl

/-! ## Claim C6: the at-most-one-enabled-default invariant -/

/-- The admin mutations over the webhooks table. -/
inductive WebhookOp where
  | add (name token secret : String) (enabled is_default : Int)
  | setDefault (wid : Int)
  | updateEnable (wid enabled : Int) (is_default : Option Int)
  | del (wid : Int)
deriving Repr, DecidableEq

/-- Dispatch one mutation to the corresponding DAO function. -/
def applyWebhookOp (db : Db) : WebhookOp → Db
  | .add n t s e d => webhook_add db n t s e d
  | .setDefault w => webhook_set_default db w
  | .updateEnable w e d => webhook_update_enable db w e d
  | .del w => webhook_delete db w

/-- A sequence of mutations applied in order. -/
def applyWebhookOps (db : Db) : List WebhookOp → Db
  | [] => db
  | op :: rest => applyWebhookOps (applyWebhookOp db op) rest

/-- Is the mutation the enable/disable update? -/
def isUpdateEnableOp : WebhookOp → Bool
  | .updateEnable _ _ _ => true
  | _ => false

/-- Number of webhooks that are both enabled and marked default. -/
def enabledDefaultCount (db : Db) : Nat :=
  (db.webhooks.filter (fun w => w.enabled == 1 && w.is_default == 1)).length

/-- The spec's invariant: at most one enabled default at any time. -/
def atMostOneEnabledDefault (db : Db) : Prop := enabledDefaultCount db ≤ 1

/-- Well-formedness that SQLite's AUTOINCREMENT primary key provides: the
webhook ids are distinct and below the next id. -/
def webhookIdsOk (db : Db) : Prop :=
  (db.webhooks.map (fun w => w.id)).Nodup ∧
  ∀ w ∈ db.webhooks, w.id < db.nextWebhookId

/-- At most one row of an id-distinct list matches a fixed id. -/
theorem countP_id_le_one (l : List WebhookRow) (wid : Int)
    (h : (l.map (fun w => w.id)).Nodup) :
    l.countP (fun w => w.id == wid) ≤ 1 := by
  induction l with
  | nil => simp
  | cons w rest ih =>
    rw [List.map_cons, List.nodup_cons] at h
    rw [List.countP_cons]
    by_cases hw : w.id = wid
    · have hz : rest.countP (fun w => w.id == wid) = 0 := by
        rw [List.countP_eq_zero]
        intro r hr hrid
        exact h.1 (by
          rw [← hw] at hrid
          have : r.id = w.id := by simpa using hrid
          exact this ▸ List.mem_map_of_mem (fun w => w.id) hr)
      simp [hz, hw]
    · simp [hw, ih h.2]

/-- webhook_set_default restores the invariant outright on any id-distinct
table: after clearing every default mark, only rows with the given id can
be an enabled default, and there is at most one such row. -/
theorem set_default_count (db : Db) (wid : Int)
    (h : (db.webhooks.map (fun w => w.id)).Nodup) :
    enabledDefaultCount (webhook_set_default db wid) ≤ 1 := by
  unfold enabledDefaultCount webhook_set_default
  simp only [List.map_map, ← List.countP_eq_length_filter, List.countP_map]
  refine le_trans (le_of_eq (List.countP_congr ?_)) (countP_id_le_one db.webhooks wid h)
  intro w _
  by_cases hw : w.id = wid <;> simp [hw]

/-- webhook_set_default changes neither the id column nor the counter. -/
theorem set_default_ids (db : Db) (wid : Int) :
    (webhook_set_default db wid).webhooks.map (fun w => w.id) =
      db.webhooks.map (fun w => w.id) ∧
    (webhook_set_default db wid).nextWebhookId = db.nextWebhookId := by
  unfold webhook_set_default
  refine ⟨?_, rfl⟩
  simp only [List.map_map]
  apply List.map_congr_left
  intro w _
  by_cases hw : w.id = wid <;> simp [hw]

/-- webhook_set_default preserves both invariants. -/
theorem set_default_invariant (db : Db) (wid : Int) (h : webhookIdsOk db) :
    atMostOneEnabledDefault (webhook_set_default db wid) ∧
    webhookIdsOk (webhook_set_default db wid) := by
  refine ⟨set_default_count db wid h.1, ?_, ?_⟩
  · rw [(set_default_ids db wid).1]
    exact h.1
  · intro w hw
    rw [(set_default_ids db wid).2]
    have hmem : w.id ∈ (webhook_set_default db wid).webhooks.map (fun w => w.id) :=
      List.mem_map_of_mem _ hw
    rw [(set_default_ids db wid).1] at hmem
    rcases List.mem_map.1 hmem with ⟨w0, hw0, hid⟩
    rw [← hid]
    exact h.2 w0 hw0

/-- The table state right after webhook_add's INSERT (is_default forced 0,
fresh AUTOINCREMENT id), before any default promotion. -/
def addedDb (db : Db) (n t s : String) (e : Int) : Db :=
  { db with
    webhooks := db.webhooks ++
      [{ id := db.nextWebhookId, name := n, access_token := t, secret := s,
         enabled := e, is_default := 0, created_at := "" }],
    nextWebhookId := db.nextWebhookId + 1 }

/-- webhook_add preserves both invariants. -/
theorem add_invariant (db : Db) (n t s : String) (e d : Int)
    (hids : webhookIdsOk db) (hinv : atMostOneEnabledDefault db) :
    atMostOneEnabledDefault (webhook_add db n t s e d) ∧
    webhookIdsOk (webhook_add db n t s e d) := by
  have hids1 : webhookIdsOk (addedDb db n t s e) := by
    constructor
    · unfold addedDb
      simp only [List.map_append, List.map_cons, List.map_nil]
      rw [List.nodup_append]
      refine ⟨hids.1, List.nodup_singleton _, ?_⟩
      intro a ha hb
      simp only [List.mem_singleton] at hb
      simp only [List.mem_map] at ha
      rcases ha with ⟨w, hw, hwid⟩
      have := hids.2 w hw
      omega
    · intro w hw
      unfold addedDb at hw ⊢
      simp only [List.mem_append, List.mem_singleton] at hw
      simp only
      rcases hw with hw | hw
      · have := hids.2 w hw
        omega
      · subst hw
        simp only
        omega
  have hinv1 : atMostOneEnabledDefault (addedDb db n t s e) := by
    unfold atMostOneEnabledDefault enabledDefaultCount at hinv ⊢
    unfold addedDb
    simp only [List.filter_append]
    have hn : List.filter (fun (w : WebhookRow) => w.enabled == 1 && w.is_default == 1)
        [{ id := db.nextWebhookId, name := n, access_token := t, secret := s,
           enabled := e, is_default := 0, created_at := "" }] = [] := by
      simp
    rw [hn, List.append_nil]
    exact hinv
  have hgoal : atMostOneEnabledDefault (webhook_add db n t s e d) ∧
      webhookIdsOk (webhook_add db n t s e d) := by
    simp only [webhook_add]
    split
    · split
      · exact ⟨(set_default_invariant _ _ hids1).1,
          (set_default_invariant _ _ hids1).2⟩
      · split
        · exact ⟨(set_default_invariant _ _ hids1).1,
            (set_default_invariant _ _ hids1).2⟩
        · exact ⟨hinv1, hids1⟩
    · exact ⟨hinv1, hids1⟩
  exact hgoal

/-- webhook_delete preserves both invariants. -/
theorem delete_invariant (db : Db) (wid : Int)
    (hids : webhookIdsOk db) (hinv : atMostOneEnabledDefault db) :
    atMostOneEnabledDefault (webhook_delete db wid) ∧
    webhookIdsOk (webhook_delete db wid) := by
  unfold webhook_delete
  refine ⟨?_, ?_, ?_⟩
  · unfold atMostOneEnabledDefault enabledDefaultCount at hinv ⊢
    simp only [← List.countP_eq_length_filter] at hinv ⊢
    calc List.countP _ (db.webhooks.filter fun w => !(w.id == wid))
        ≤ List.countP (fun w => w.enabled == 1 && w.is_default == 1) db.webhooks :=
          List.Sublist.countP_le _ (List.filter_sublist _)
      _ ≤ 1 := hinv
  · exact List.Nodup.sublist (List.Sublist.map _ (List.filter_sublist _)) hids.1
  · intro w hw
    exact hids.2 w (List.mem_of_mem_filter hw)

/-- Claim C6 counterexample: from a well-formed state with exactly one
enabled default (webhook 1) and a second enabled non-default webhook, the
enable/disable update webhook_update_enable(2, enabled=1, is_default=1)
marks webhook 2 default without clearing webhook 1 — two enabled defaults
remain, violating the claimed invariant preservation. -/
theorem webhook_default_invariant_counterexample :
    atMostOneEnabledDefault db0 ∧ webhookIdsOk db0 ∧
    ¬ atMostOneEnabledDefault
        (applyWebhookOps db0 [WebhookOp.updateEnable 2 1 (some 1)]) := by
  refine ⟨?_, ⟨by decide, by decide⟩, ?_⟩
  · show enabledDefaultCount db0 ≤ 1
    decide
  · show ¬ enabledDefaultCount (applyWebhookOps db0 [WebhookOp.updateEnable 2 1 (some 1)]) ≤ 1
    decide

/-- Claim C6 amended: any sequence of webhook_add, webhook_set_default and
webhook_delete operations preserves the at-most-one-enabled-default
invariant on a well-formed (AUTOINCREMENT-id) table; webhook_update_enable
is excluded, since it can install a second enabled default. -/
theorem webhook_default_invariant_amended (ops : List WebhookOp) :
    ∀ db : Db, (∀ op ∈ ops, isUpdateEnableOp op = false) → webhookIdsOk db →
      atMostOneEnabledDefault db →
      atMostOneEnabledDefault (applyWebhookOps db ops) := by
  have main : ∀ (ops : List WebhookOp) (db : Db),
      (∀ op ∈ ops, isUpdateEnableOp op = false) → webhookIdsOk db →
      atMostOneEnabledDefault db →
      atMostOneEnabledDefault (applyWebhookOps db ops) ∧
      webhookIdsOk (applyWebhookOps db ops) := by
    intro ops
    induction ops with
    | nil => intro db _ hids hinv; exact ⟨hinv, hids⟩
    | cons op rest ih =>
      intro db hops hids hinv
      have hop := hops op (List.mem_cons_self op rest)
      have hrest : ∀ o ∈ rest, isUpdateEnableOp o = false :=
        fun o ho => hops o (List.mem_cons_of_mem op ho)
      have hstep : atMostOneEnabledDefault (applyWebhookOp db op) ∧
          webhookIdsOk (applyWebhookOp db op) := by
        cases op with
        | add n t s e d => exact add_invariant db n t s e d hids hinv
        | setDefault w =>
          exact ⟨(set_default_invariant db w hids).1,
            (set_default_invariant db w hids).2⟩
        | updateEnable w e d => simp [isUpdateEnableOp] at hop
        | del w => exact delete_invariant db w hids hinv
      exact ih (applyWebhookOp db op) hrest hstep.2 hstep.1
  intro db hops hids hinv
  exact (main ops db hops hids hinv).1

/-- Claim C6 witness: a concrete add / set-default / delete trace from db0
keeps at most one enabled default. -/
theorem webhook_default_invariant_amended_witness :
    atMostOneEnabledDefault
      (applyWebhookOps db0
        [WebhookOp.add "n" "t" "s" 1 1, WebhookOp.setDefault 2,
         WebhookOp.del 1]) :=
  webhook_default_invariant_amended
    [WebhookOp.add "n" "t" "s" 1 1, WebhookOp.setDefault 2, WebhookOp.del 1]
    db0 (by decide) ⟨by decide, by decide⟩
    (by show enabledDefaultCount db0 ≤ 1; decide)

/-! ## Claim C1: window-bounded duplicate suppression -/

/-- The dict write makes the written key's recorded time the written
value. -/
theorem cacheGet_cacheSet (c : List (String × Rat)) (k : String) (v : Rat) :
    cacheGet (cacheSet c k v) k = some v := by
  unfold cacheGet cacheSet
  by_cases h : c.any (fun kv => kv.1 == k)
  · rw [if_pos h]
    have hgen : ∀ c0 : List (String × Rat),
        (c0.find? (fun kv => kv.1 == k)).isSome = true →
        ((c0.map (fun kv => if kv.1 == k then (kv.1, v) else kv)).find?
          (fun kv => kv.1 == k)).map (fun kv => kv.2) = some v := by
      intro c0
      induction c0 with
      | nil => simp
      | cons kv rest ih =>
        intro hs
        by_cases hk : kv.1 = k
        · have hk' : (kv.1 == k) = true := beq_iff_eq.mpr hk
          rw [List.map_cons]
          have hfkv : (if (kv.1 == k) = true then (kv.1, v) else kv) = (kv.1, v) := by
            rw [hk']
            simp
          rw [hfkv, List.find?_cons_of_pos _ (by simpa using hk')]
          simp
        · have hk' : (kv.1 == k) = false := beq_eq_false_iff_ne.mpr hk
          rw [List.map_cons]
          have hfkv : (if (kv.1 == k) = true then (kv.1, v) else kv) = kv := by
            rw [hk']
            simp
          rw [hfkv, List.find?_cons_of_neg _ (by simp [hk'])]
          rw [List.find?_cons_of_neg _ (by simp [hk'])] at hs
          exact ih hs
    exact hgen c (by
      rw [List.find?_isSome]
      simpa [List.any_eq_true] using h)
  · rw [if_neg h]
    have hf : c.any (fun kv => kv.1 == k) = false := by
      cases hany : c.any (fun kv => kv.1 == k)
      · rfl
      · exact absurd hany h
    rw [List.any_eq_false] at hf
    have hnone : c.find? (fun kv => kv.1 == k) = none := by
      rw [List.find?_eq_none]
      exact hf
    rw [List.find?_append, hnone]
    simp

/-- Filtering by a value-only predicate keeps a recorded entry whose value
satisfies the predicate, with the same lookup result. -/
theorem cacheGet_filter (k : String) (v : Rat) (g : Rat → Bool) :
    ∀ c : List (String × Rat), cacheGet c k = some v → g v = true →
      cacheGet (c.filter (fun kv => g kv.2)) k = some v := by
  intro c
  induction c with
  | nil => simp [cacheGet]
  | cons kv rest ih =>
    intro hget hg
    by_cases hk : kv.1 = k
    · have hk' : (kv.1 == k) = true := beq_iff_eq.mpr hk
      unfold cacheGet at hget
      rw [List.find?_cons_of_pos _ (by simpa using hk')] at hget
      have hv : kv.2 = v := by simpa using hget
      unfold cacheGet
      rw [List.filter_cons]
      simp only [hv, hg, if_true]
      rw [List.find?_cons_of_pos _ (by simpa using hk')]
      simp [hv]
    · have hk' : (kv.1 == k) = false := beq_eq_false_iff_ne.mpr hk
      unfold cacheGet at hget
      rw [List.find?_cons_of_neg _ (by simp [hk'])] at hget
      have hrest := ih hget hg
      unfold cacheGet at hrest ⊢
      rw [List.filter_cons]
      by_cases hgkv : g kv.2
      · simp only [hgkv, if_true]
        rw [List.find?_cons_of_neg _ (by simp [hk'])]
        exact hrest
      · simp only [hgkv, Bool.false_eq_true, if_false]
        exact hrest

/-- Pruning never drops an entry recorded at the pruning instant. -/
theorem cacheGet_prune (cnt : Nat) (c : List (String × Rat)) (now ttl : Rat)
    (k : String) (hget : cacheGet c k = some now) :
    cacheGet (prune_recent_keys cnt c now ttl).2 k = some now := by
  unfold prune_recent_keys
  by_cases hb : (cnt + 1) % 200 != 0 && c.length < 10000
  · simp only [hb, if_true]
    exact hget
  · simp only [hb, Bool.false_eq_true, if_false]
    have h30 : (0 : Rat) < max (ttl * 2) 30 :=
      lt_of_lt_of_le (by norm_num) (le_max_right _ _)
    have hnot : ¬((0 : Rat) > max (ttl * 2) 30) := not_lt.mpr h30.le
    exact cacheGet_filter k now
      (fun t => !(decide (now - t > max (ttl * 2) 30))) c hget
      (by simp [sub_self, hnot])

/-- The cache after the core pipeline: the written-then-pruned dictionary. -/
theorem handle_core_cache (cfg : Config) (env : CallEnv) (p : Payload)
    (echo : Bool) (st : SysState) :
    (handle_core cfg env p echo st).state.recent_keys =
      (prune_recent_keys st.pruneCnt
        (cacheSet st.recent_keys (dedup_key env.timeEnv p) env.now)
        env.now cfg.DEDUP_WINDOW).2 := by
  cases echo <;> rfl

/-- After a non-suppressed call, the fingerprint is recorded at the call's
arrival time. -/
theorem cacheGet_after_core (cfg : Config) (env : CallEnv) (p : Payload)
    (echo : Bool) (st : SysState) :
    cacheGet (handle_core cfg env p echo st).state.recent_keys
      (dedup_key env.timeEnv p) = some env.now := by
  rw [handle_core_cache]
  exact cacheGet_prune _ _ _ _ _ (cacheGet_cacheSet _ _ _)

/-- A batch of calls that are all suppressed against the current state
returns only suppression acknowledgments, invokes no webhook, and leaves
the state untouched. -/
theorem process_suppressed (cfg : Config) :
    ∀ (evs : List (Payload × Bool × CallEnv)) (st : SysState),
      (∀ q ∈ evs, shouldSuppress st.recent_keys (dedup_key q.2.2.timeEnv q.1)
        q.2.2.now cfg.DEDUP_WINDOW = true) →
      process_events cfg st evs =
        (st, evs.map (fun _ => (Resp.ack 200 "重复告警抑制", ([] : List Int)))) := by
  intro evs
  induction evs with
  | nil => intro st _; rfl
  | cons e rest ih =>
    intro st h
    have he := h e (List.mem_cons_self e rest)
    have hrest : ∀ q ∈ rest, shouldSuppress st.recent_keys
        (dedup_key q.2.2.timeEnv q.1) q.2.2.now cfg.DEDUP_WINDOW = true :=
      fun q hq => h q (List.mem_cons_of_mem e hq)
    unfold process_events
    rw [handle_suppressed cfg e.2.2 e.1 e.2.1 st he]
    simp only [ih st hrest, List.map_cons]

/-- With a working persistence layer, a disabled sweep and a fingerprint
not yet in the log, the core pipeline appends exactly one row carrying the
event's fingerprint. -/
theorem handle_core_messages_insert (cfg : Config) (env : CallEnv) (p : Payload)
    (echo : Bool) (st : SysState) (hrows : cfg.DB_MAX_ROWS ≤ 0)
    (hf : env.insertFails = false)
    (hnew : ∀ m ∈ st.db.messages, ¬ m.dedup_key = dedup_key env.timeEnv p) :
    ∃ r, (handle_core cfg env p echo st).state.db.messages =
      st.db.messages ++ [r] ∧ r.dedup_key = dedup_key env.timeEnv p := by
  unfold handle_core
  simp only [hf, Bool.false_eq_true, if_false]
  rw [db_sweep_maybe_norows _ _ _ _ _ hrows]
  simp only
  rw [(upsert_channel_messages _ _ _ _ _ _ _ _).1,
     (upsert_device_messages _ _ _ _).1,
     (upsert_channel_messages _ _ _ _ _ _ _ _).2,
     (upsert_device_messages _ _ _ _).2]
  unfold insert_message
  have hany : st.db.messages.any
      (fun m => m.dedup_key == dedup_key env.timeEnv p) = false := by
    rw [List.any_eq_false]
    intro m hm
    simp only [beq_iff_eq]
    exact fun hc => hnew m hm (by simpa using hc)
  rw [hany]
  simp only [Bool.false_eq_true, if_false]
  cases echo <;> exact ⟨_, rfl, rfl⟩

/-- Claim C1: for a sequence of ingested events sharing one dedup
fingerprint — the first arriving with the fingerprint absent from the
cache, each later one arriving within the suppression window of the
recorded (first) arrival — only the first event reaches forwarding and
persistence: the whole run's final state is the state right after the first
call, every later call returns the suppression acknowledgment with no
webhook invocation, and (working persistence, sweep disabled, fresh
fingerprint) the first call appends exactly one row for the fingerprint. -/
theorem dedup_window_suppression (cfg : Config) (st : SysState) (p : Payload)
    (env1 : CallEnv) (rest : List (Payload × Bool × CallEnv))
    (hfresh : cacheGet st.recent_keys (dedup_key env1.timeEnv p) = none)
    (hpos : 0 < env1.now)
    (hrest : ∀ q ∈ rest,
      dedup_key q.2.2.timeEnv q.1 = dedup_key env1.timeEnv p ∧
      env1.now ≤ q.2.2.now ∧ q.2.2.now - env1.now < cfg.DEDUP_WINDOW) :
    (process_events cfg st ((p, false, env1) :: rest)).1 =
      (handle_record_and_forward cfg env1 p false st).state ∧
    (process_events cfg st ((p, false, env1) :: rest)).2 =
      ((handle_record_and_forward cfg env1 p false st).resp,
        (handle_record_and_forward cfg env1 p false st).sends) ::
        rest.map (fun _ => (Resp.ack 200 "重复告警抑制", ([] : List Int))) ∧
    (env1.insertFails = false → cfg.DB_MAX_ROWS ≤ 0 →
      (∀ m ∈ st.db.messages, ¬ m.dedup_key = dedup_key env1.timeEnv p) →
      ∃ r, (handle_record_and_forward cfg env1 p false st).state.db.messages =
        st.db.messages ++ [r] ∧ r.dedup_key = dedup_key env1.timeEnv p) := by
  have hns : shouldSuppress st.recent_keys (dedup_key env1.timeEnv p) env1.now
      cfg.DEDUP_WINDOW = false := by
    unfold shouldSuppress
    rw [hfresh]
  have heq := handle_not_suppressed cfg env1 p false st hns
  have hcache := cacheGet_after_core cfg env1 p false st
  have hsupp : ∀ q ∈ rest,
      shouldSuppress (handle_core cfg env1 p false st).state.recent_keys
        (dedup_key q.2.2.timeEnv q.1) q.2.2.now cfg.DEDUP_WINDOW = true := by
    intro q hq
    obtain ⟨hk, _, hw⟩ := hrest q hq
    unfold shouldSuppress
    rw [hk, hcache]
    simp [ne_of_gt hpos, hw]
  have hrun := process_suppressed cfg rest
    (handle_core cfg env1 p false st).state hsupp
  refine ⟨?_, ?_, ?_⟩
  · rw [heq]
    simp only [process_events, heq, hrun]
  · rw [heq]
    simp only [process_events, heq, hrun]
  · intro hf hrows hnew
    rw [heq]
    exact handle_core_messages_insert cfg env1 p false st hrows hf hnew

/-- The second arrival, 5 seconds after the first (inside the default
10-second window). -/
def cenv105 : CallEnv := { cenv0 with now := 105, now2 := 105 }

/-- Claim C1 witness: the same event arriving at t=100 and again at t=105
— the run ends in the first call's state, the second call returns the
suppression acknowledgment without invoking any webhook, and the first call
appended the one row for the fingerprint. -/
theorem dedup_window_suppression_witness :
    (process_events cfg0 st0 ((p0, false, cenv0) :: [(p0, false, cenv105)])).1 =
      (handle_record_and_forward cfg0 cenv0 p0 false st0).state ∧
    (process_events cfg0 st0 ((p0, false, cenv0) :: [(p0, false, cenv105)])).2 =
      ((handle_record_and_forward cfg0 cenv0 p0 false st0).resp,
        (handle_record_and_forward cfg0 cenv0 p0 false st0).sends) ::
        [(p0, false, cenv105)].map
          (fun _ => (Resp.ack 200 "重复告警抑制", ([] : List Int))) ∧
    ∃ r, (handle_record_and_forward cfg0 cenv0 p0 false st0).state.db.messages =
      st0.db.messages ++ [r] ∧ r.dedup_key = dedup_key cenv0.timeEnv p0 := by
  have h := dedup_window_suppression cfg0 st0 p0 cenv0 [(p0, false, cenv105)]
    rfl (by show (0 : Rat) < 100; norm_num)
    (by
      intro q hq
      simp only [List.mem_singleton] at hq
      subst hq
      refine ⟨rfl, ?_, ?_⟩
      · show (100 : Rat) ≤ 105
        norm_num
      · show (105 : Rat) - 100 < 10
        norm_num)
  exact ⟨h.1, h.2.1, h.2.2 rfl (by decide) (by intro m hm; cases hm)⟩

/-! ## Claim C5: reconciliation under a truncated reference scan -/

/-- The referenced-set accumulation over a list of rows that the scan fully
processes (the body of the scan loop without the cap check). -/
def collectRefs (snapRel : String → Option String) :
    List MsgRow → List String → List String
  | [], refs => refs
  | m :: rest, refs =>
    collectRefs snapRel rest
      (match snapRel ((m.image_url).getD "") with
       | some rel => if refs.contains rel then refs else refs ++ [rel]
       | none => refs)

/-- When the cap is positive and the remaining rows overflow it, the scan
stops right after the cap: it counts cap+1 scanned rows, keeps exactly the
references collected from the first (cap - scanned) rows, and reports
truncation. -/
theorem scanRefs_overflow (snapRel : String → Option String) (maxUrls : Int) :
    ∀ (rows : List MsgRow) (scanned : Nat) (refs : List String),
      maxUrls > 0 → (scanned : Int) ≤ maxUrls →
      (scanned : Int) + rows.length > maxUrls →
      scanRefs snapRel maxUrls rows scanned refs =
        (maxUrls.toNat + 1,
         collectRefs snapRel (rows.take (maxUrls - scanned).toNat) refs, true) := by
  intro rows
  induction rows with
  | nil =>
    intro scanned refs hmax hle hover
    simp only [List.length_nil] at hover
    omega
  | cons m rest ih =>
    intro scanned refs hmax hle hover
    unfold scanRefs
    by_cases hc : ((scanned + 1 : Nat) : Int) > maxUrls
    · rw [if_pos ⟨hmax, hc⟩]
      have h1 : (scanned : Int) = maxUrls := by push_cast at hc; omega
      have h2 : maxUrls.toNat = scanned := by omega
      have h3 : (maxUrls - scanned).toNat = 0 := by omega
      rw [h2, h3]
      simp [collectRefs]
    · rw [if_neg (fun hh => hc hh.2)]
      have hrec := ih (scanned + 1)
        (match snapRel ((m.image_url).getD "") with
         | some rel => if refs.contains rel then refs else refs ++ [rel]
         | none => refs)
        hmax (by push_cast at hc ⊢; omega)
        (by
          simp only [List.length_cons] at hover
          push_cast at hover ⊢
          omega)
      rw [hrec]
      have hk : (maxUrls - scanned).toNat = (maxUrls - (scanned + 1)).toNat + 1 := by
        push_cast at hc
        omega
      rw [hk, List.take_succ_cons]
      rfl

/-- Claim C5: when the reference scan hits the configured cap, the run
deletes no image file as an orphan (the file store is returned unchanged
and the orphan/deleted counters are zero), while the broken-reference
repair is still performed using exactly the references gathered from the
rows scanned before the cap was hit. -/
theorem reconcile_truncation_skips_orphans (cfg : Config)
    (snapRel : String → Option String) (msgs : List MsgRow) (fs : FsState)
    (hcap : cfg.RECONCILE_MAX_URLS > 0)
    (hover : ((scanRows msgs).length : Int) > cfg.RECONCILE_MAX_URLS) :
    (reconcile_db_and_snaps cfg snapRel msgs fs).2.1.files = fs.files ∧
    (reconcile_db_and_snaps cfg snapRel msgs fs).2.2.deleted_files = 0 ∧
    (reconcile_db_and_snaps cfg snapRel msgs fs).2.2.orphan_files = 0 ∧
    (reconcile_db_and_snaps cfg snapRel msgs fs).2.2.scanned_urls =
      cfg.RECONCILE_MAX_URLS.toNat + 1 ∧
    (reconcile_db_and_snaps cfg snapRel msgs fs).1 =
      (brokenPhase cfg.BROKEN_REF_POLICY fs.files
        (collectRefs snapRel
          ((scanRows msgs).take cfg.RECONCILE_MAX_URLS.toNat) [])
        msgs).1 := by
  have hscan := scanRefs_overflow snapRel cfg.RECONCILE_MAX_URLS (scanRows msgs)
    0 [] hcap (by omega) (by simpa using hover)
  simp only [reconcile_db_and_snaps]
  rw [hscan]
  simp only [Bool.not_true, Bool.and_false, Bool.false_eq_true, if_false,
    Int.sub_zero]
  refine ⟨trivial, trivial, trivial, trivial, ?_⟩
  norm_num

/-- The witness reference extractor: the two snaps URLs that occur in the
fixture rows. -/
def snapRelW (u : String) : Option String :=
  if u == "/static/snaps/20240101/a.jpg" then some "snaps/20240101/a.jpg"
  else if u == "/static/snaps/20240102/b.jpg" then some "snaps/20240102/b.jpg"
  else none

/-- A fixture event-log row with a given id, image URL and fingerprint. -/
def mrowU (i : Int) (u : Option String) : MsgRow :=
  { id := i, ts := "t", device_id := "d", channel_key := "c", channel_name := "cn",
    type_ := some 1, type_name := "", box_name := "", device_name := "",
    score := "", image_url := u, forwarded := 0, forward_reason := "",
    dedup_key := "k" ++ toString i, raw_json := "" }

/-- Fixture rows: two referencing snaps URLs, one without an image. -/
def msgsW : List MsgRow :=
  [mrowU 1 (some "/static/snaps/20240101/a.jpg"),
   mrowU 2 (some "/static/snaps/20240102/b.jpg"),
   mrowU 3 none]

/-- Fixture store: the file behind row 2, plus an orphan. -/
def fsW : FsState :=
  { files := [{ day := "20240102", name := "b.jpg" },
              { day := "20240103", name := "orph.jpg" }],
    dirs := ["20240101", "20240102", "20240103"] }

/-- The witness configuration: reference cap 1, hit by the two URL rows. -/
def cfgCap1 : Config := { cfg0 with RECONCILE_MAX_URLS := 1 }

/-- Claim C5 witness: with cap 1 and two URL-bearing rows, reconciliation
keeps every file (the orphan included), reports scanned=2 and no deletion,
and still repairs using the single gathered reference. -/
theorem reconcile_truncation_skips_orphans_witness :
    (reconcile_db_and_snaps cfgCap1 snapRelW msgsW fsW).2.1.files = fsW.files ∧
    (reconcile_db_and_snaps cfgCap1 snapRelW msgsW fsW).2.2.deleted_files = 0 ∧
    (reconcile_db_and_snaps cfgCap1 snapRelW msgsW fsW).2.2.orphan_files = 0 ∧
    (reconcile_db_and_snaps cfgCap1 snapRelW msgsW fsW).2.2.scanned_urls =
      cfgCap1.RECONCILE_MAX_URLS.toNat + 1 ∧
    (reconcile_db_and_snaps cfgCap1 snapRelW msgsW fsW).1 =
      (brokenPhase cfgCap1.BROKEN_REF_POLICY fsW.files
        (collectRefs snapRelW
          ((scanRows msgsW).take cfgCap1.RECONCILE_MAX_URLS.toNat) [])
        msgsW).1 :=
  reconcile_truncation_skips_orphans cfgCap1 snapRelW msgsW fsW
    (by decide) (by decide)

end Alarm2Ding
